import Mathlib

/-!
Verification of the CNPJ batch-lookup utility (src/main.py).

The development shallowly embeds the five operations of the script:
the identifier normalizer `limpar_cnpj`, the registry client
`obter_dados_empresa_por_cnpj`, the record formatter `formatar_dados`,
the spreadsheet appender `salvar_dados_empresa_excel`, and the driver
loop that accumulates `resultados` and performs the final save.

External effects are embedded as explicit inputs: the HTTP response is
passed to the client as a status code plus the outcome of decoding the
body, and the spreadsheet file is passed to the appender as a workbook
value (a named collection of sheets).  Runtime exceptions of the host
language are modelled with the `PyExc` type and `Except`.
-/

namespace BuscaCnpj

/-- Decoded JSON documents, as produced by the JSON decoder of the host
runtime: null, booleans, numbers, strings, arrays, and objects.  Objects
are association lists of string keys; a decoded JSON object binds each
key once, which the lookups below assume. -/
inductive JVal where
  | null : JVal
  | bool (b : Bool) : JVal
  | num (n : Int) : JVal
  | str (s : String) : JVal
  | list (xs : List JVal) : JVal
  | obj (fields : List (String × JVal)) : JVal

/-- Runtime exceptions that the embedded code can raise. -/
inductive PyExc where
  | keyError
  | typeError
  | attributeError
  | indexError
  | jsonDecodeError
deriving DecidableEq

/-- Truthiness of a decoded value under the host runtime: null, false,
zero, and the empty string, array, or object are falsy; everything else
is truthy. -/
def jtruthy : JVal → Bool
  | .null => false
  | .bool b => b
  | .num n => n != 0
  | .str s => s != ""
  | .list xs => !xs.isEmpty
  | .obj m => !m.isEmpty

/-- First-match lookup in a decoded object, with a default for a
missing key: the behaviour of the `get` method of a mapping. -/
def dictGetD (d : List (String × JVal)) (k : String) (dflt : JVal) : JVal :=
  match d.lookup k with
  | some v => v
  | none => dflt

/-- In-place update of a key of a decoded object (assignment to an
existing key keeps its position; a fresh key is appended). -/
def dictSet (d : List (String × JVal)) (k : String) (v : JVal) :
    List (String × JVal) :=
  match d with
  | [] => [(k, v)]
  | (k0, v0) :: rest =>
    if k0 = k then (k0, v) :: rest else (k0, v0) :: dictSet rest k v

/-- The membership operator `in` of the host runtime, applied to a
string key and a decoded value: key test on objects, element equality
on arrays, substring test on strings, and a type error otherwise. -/
def pyIn (k : String) (v : JVal) : Except PyExc Bool :=
  match v with
  | .obj m => .ok (m.any (fun p => p.1 == k))
  | .list xs =>
    .ok (xs.any (fun x => match x with | .str s => s == k | _ => false))
  | .str s => .ok (k == "" || (s.splitOn k).length != 1)
  | _ => .error .typeError

/-- Subscripting a decoded value with a string key: object lookup
(raising a key error when absent), a type error on every other shape. -/
def pySubscriptStr (v : JVal) (k : String) : Except PyExc JVal :=
  match v with
  | .obj m =>
    match m.lookup k with
    | some x => .ok x
    | none => .error .keyError
  | _ => .error .typeError

/-- Subscripting a decoded value with a natural index: array and string
indexing (raising an index error when out of range), a key error on
objects (whose keys are strings), and a type error otherwise. -/
def pySubscriptNat (v : JVal) (i : Nat) : Except PyExc JVal :=
  match v with
  | .list xs =>
    match xs.get? i with
    | some x => .ok x
    | none => .error .indexError
  | .str s =>
    match s.data.get? i with
    | some c => .ok (.str (String.mk [c]))
    | none => .error .indexError
  | .obj _ => .error .keyError
  | _ => .error .typeError

/-- The `get` method call on a decoded value: defaulting lookup on
objects, an attribute error on every other shape (which carries no such
method). -/
def pyGetMethod (v : JVal) (k : String) (dflt : JVal) : Except PyExc JVal :=
  match v with
  | .obj m => .ok (dictGetD m k dflt)
  | _ => .error .attributeError

/-- Digit classification used by the normalizer.  The `isdigit` test of
the host runtime accepts every character whose Unicode numeric type is
Decimal or Digit, a strict superset of the ASCII digits.  The model
enumerates the fragment of that class relevant here: the ASCII digits,
the Latin-1 superscript digits, and the Arabic-Indic, Devanagari and
fullwidth decimal digit blocks.  Every further character the runtime
classifies as a digit behaves, for the properties proved below, like
the enumerated non-ASCII ones. -/
def str_isdigit (c : Char) : Bool :=
  (('0' ≤ c) && (c ≤ '9'))
  || c == '¹' || c == '²' || c == '³'
  || (('٠' ≤ c) && (c ≤ '٩'))
  || (('०' ≤ c) && (c ≤ '९'))
  || (('０' ≤ c) && (c ≤ '９'))

/-- src/main.py line 46: keep exactly the characters classified as
digits, in input order, concatenated with no separator. -/
def limpar_cnpj (cnpj : String) : String :=
  String.mk (cnpj.data.filter str_isdigit)

/-- Equality comparison of a decoded value against the string
sentinel "ERROR": only an equal string compares equal; comparison of a
string with a value of another shape is false, never an error. -/
def eqStrERROR : JVal → Bool
  | .str s => s == "ERROR"
  | _ => false

/-- Observable outcome of one registry lookup: the request path built
from the normalized identifier, whether the connection was closed, and
either the returned record (`some`), the absence signal (`none`), or a
raised exception. -/
structure LookupResult where
  requestPath : String
  connClosed : Bool
  outcome : Except PyExc (Option JVal)

/-- src/main.py lines 49-136, the registry client.  The network is an
explicit input: `status` is the HTTP status of the response and `body`
is the outcome of decoding the response body as JSON (an `Except`
because the decoder of a malformed body raises).  Control flow follows
the source: on a status other than 200 the connection is closed and
`none` is returned before the body is ever read; on 200 the connection
is closed after the read, then the body is decoded (a decode failure
propagates, there is no handler), then the sentinel test
`"status" in empresa and empresa["status"] == "ERROR"` selects between
the absence signal and the record itself. -/
def obter_dados_empresa_por_cnpj (cnpj : String) (status : Nat)
    (body : Except PyExc JVal) : LookupResult :=
  let cnpjLimpo := limpar_cnpj cnpj
  let path := "/v1/cnpj/" ++ cnpjLimpo
  if status ≠ 200 then
    ⟨path, true, .ok none⟩
  else
    match body with
    | .error e => ⟨path, true, .error e⟩
    | .ok empresa =>
      match pyIn "status" empresa with
      | .error e => ⟨path, true, .error e⟩
      | .ok b =>
        if b then
          match pySubscriptStr empresa "status" with
          | .error e => ⟨path, true, .error e⟩
          | .ok v =>
            if eqStrERROR v then ⟨path, true, .ok none⟩
            else ⟨path, true, .ok (some empresa)⟩
        else ⟨path, true, .ok (some empresa)⟩

/-- src/main.py line 161: the ten fields of interest, in order. -/
def campos_interesse : List String :=
  ["cnpj", "nome", "telefone", "email", "logradouro", "bairro",
   "municipio", "uf", "cep", "atividade_principal"]

/-- src/main.py lines 139-184, the record formatter.  Line 170 builds
the projection dictionary by calling the `get` method of `empresa` for
each field of interest with the empty string as default; lines 179-180
test `"atividade_principal" in empresa and empresa["atividade_principal"]`
and, when the test holds, replace that entry by the `text` entry of the
first element of the activity value.  Each `get`, membership test and
subscript is embedded with its runtime semantics, so a record of an
unexpected shape raises exactly where the source would. -/
def formatar_dados (empresa : JVal) : Except PyExc (List (String × JVal)) := do
  let dados_formatados ← campos_interesse.mapM
    (fun campo =>
      (pyGetMethod empresa campo (JVal.str "")).map (fun v => (campo, v)))
  let cond ← pyIn "atividade_principal" empresa
  if cond then do
    let atividade ← pySubscriptStr empresa "atividade_principal"
    if jtruthy atividade then do
      let primeira ← pySubscriptNat atividade 0
      let texto ← pyGetMethod primeira "text" (JVal.str "")
      pure (dictSet dados_formatados "atividade_principal" texto)
    else
      pure dados_formatados
  else
    pure dados_formatados

/-- A spreadsheet row: an ordered sequence of cell values. -/
abbrev Row := List JVal

/-- A sheet: an ordered sequence of rows (a header row, when present,
is simply the first row). -/
abbrev Sheet := List Row

/-- A workbook: a named, ordered collection of sheets. -/
abbrev Workbook := List (String × Sheet)

/-- The tabular batch handed to the appender: named columns plus data
rows, the shape of the `resultados` DataFrame. -/
structure DataFrame where
  cols : List String
  rows : List Row

/-- Lookup of a sheet by name in a workbook. -/
def lookupSheet (wb : Workbook) (name : String) : Option Sheet :=
  match wb with
  | [] => none
  | (n, ws) :: rest => if n = name then some ws else lookupSheet rest name

/-- Replacement of the sheet of the given name (creating it at the end
of the workbook when absent); every other sheet is untouched. -/
def setSheet (wb : Workbook) (name : String) (ws : Sheet) : Workbook :=
  match wb with
  | [] => [(name, ws)]
  | (n, s) :: rest =>
    if n = name then (n, ws) :: rest else (n, s) :: setSheet rest name ws

/-- The `max_row` attribute of a worksheet: the 1-based index of the
last occupied row.  The spreadsheet library reports 1 even for a sheet
with no occupied cells, hence the lower bound; for the nonempty sheets
this program ever revisits it equals the row count. -/
def max_row (ws : Sheet) : Nat := max 1 ws.length

/-- A row with no occupied cells. -/
def emptyRow : Row := []

/-- Writing a block of rows into a sheet at a given 0-based starting
row with overlay semantics: rows before `start` are untouched, a gap
between the end of the sheet and `start` is blank, and rows beyond the
written block survive. -/
def writeRowsAt (ws : Sheet) (start : Nat) (rows : List Row) : Sheet :=
  ws.take start ++ List.replicate (start - ws.length) emptyRow ++ rows
    ++ ws.drop (start + rows.length)

/-- The header row written on sheet creation: the column names of the
batch, as string cells. -/
def headerRow (resultados : DataFrame) : Row :=
  resultados.cols.map JVal.str

/-- src/main.py line 222, the probe `writer.book[nome_aba]`: subscript
of the workbook by sheet name, raising a key error when absent. -/
def getSheet (wb : Workbook) (name : String) : Except PyExc Sheet :=
  match lookupSheet wb name with
  | some ws => .ok ws
  | none => .error .keyError

/-- src/main.py lines 218-241, the body of the appender given the
outcome of the probe.  The `try` block computes `start_row` as
`max_row` of the probed sheet and writes the data rows there with no
header; the handler catches exactly the key-error signal and writes a
header followed by the data rows; any other exception from the probe
is not caught and propagates. -/
def salvar_core (probe : Except PyExc Sheet) (resultados : DataFrame) :
    Except PyExc Sheet :=
  match probe with
  | .ok worksheet =>
    .ok (writeRowsAt worksheet (max_row worksheet) resultados.rows)
  | .error .keyError => .ok (headerRow resultados :: resultados.rows)
  | .error e => .error e

/-- src/main.py lines 187-241, the appender over an opened workbook:
probe the target sheet, run the body, and store the resulting sheet
under the target name, leaving every other sheet untouched. -/
def salvar_dados_empresa_excel (resultados : DataFrame) (wb : Workbook)
    (nome_aba : String) : Except PyExc Workbook :=
  match salvar_core (getSheet wb nome_aba) resultados with
  | .ok ws => .ok (setSheet wb nome_aba ws)
  | .error e => .error e

/-- src/main.py line 216, the file-open step of the appender: the
workbook argument is the outcome of opening the file, and an open
failure propagates before anything else runs. -/
def salvar_com_abertura (resultados : DataFrame)
    (opened : Except PyExc Workbook) (nome_aba : String) :
    Except PyExc Workbook :=
  match opened with
  | .error e => .error e
  | .ok wb => salvar_dados_empresa_excel resultados wb nome_aba

/-- Key list of a result dictionary, in order. -/
def dictKeys (d : List (String × JVal)) : List String := d.map Prod.fst

/-- Column inference of the DataFrame constructor on a list of result
dictionaries: the keys in order of first appearance. -/
def dfColumns (rs : List (List (String × JVal))) : List String :=
  rs.foldl
    (fun acc d => acc ++ (dictKeys d).filter (fun k => !acc.contains k)) []

/-- src/main.py line 300, `pd.DataFrame(resultados)`: columns are the
keys in order of first appearance, each row holds the values of one
dictionary in column order, a missing key yielding an empty cell. -/
def pdDataFrame (rs : List (List (String × JVal))) : DataFrame :=
  ⟨dfColumns rs,
   rs.map (fun d => (dfColumns rs).map (fun c => dictGetD d c JVal.null))⟩

/-- src/main.py lines 263-287, the accumulation loop of the driver.
The network environment is an explicit input assigning to each
identifier the status and decoded body of its lookup.  Each identifier
is looked up in turn; a raised exception aborts the loop; a truthy
record is formatted (a formatter exception likewise aborts) and
appended to `resultados`; a falsy result is skipped. -/
def driver_loop (env : String → Nat × Except PyExc JVal) :
    List String → List (List (String × JVal)) →
    Except PyExc (List (List (String × JVal)))
  | [], resultados => .ok resultados
  | cnpj :: rest, resultados =>
    match (obter_dados_empresa_por_cnpj cnpj (env cnpj).1 (env cnpj).2).outcome with
    | .error e => .error e
    | .ok none => driver_loop env rest resultados
    | .ok (some v) =>
      if jtruthy v then
        match formatar_dados v with
        | .error e => .error e
        | .ok linha => driver_loop env rest (resultados ++ [linha])
      else
        driver_loop env rest resultados

/-- src/main.py lines 293-308, the final step of the driver: when the
accumulated list is nonempty, build the DataFrame and invoke the
appender on the sheet named Dados; when it is empty, the appender is
not invoked and the workbook is untouched. -/
def driver_save (resultados : List (List (String × JVal))) (wb : Workbook) :
    Except PyExc Workbook :=
  if resultados.isEmpty then .ok wb
  else salvar_dados_empresa_excel (pdDataFrame resultados) wb "Dados"

/-- Specification-side characterization of one driver iteration, used
to state the batch invariant: the row kept for an identifier is the
formatted record when its lookup yields a truthy record and formatting
raises nothing, and nothing otherwise. -/
def specKeptRow (env : String → Nat × Except PyExc JVal) (cnpj : String) :
    Option (List (String × JVal)) :=
  match (obter_dados_empresa_por_cnpj cnpj (env cnpj).1 (env cnpj).2).outcome with
  | .ok (some v) => if jtruthy v then (formatar_dados v).toOption else none
  | _ => none

/-! ## Helper lemmas -/

theorem lookupSheet_setSheet_self (wb : Workbook) (name : String) (ws : Sheet) :
    lookupSheet (setSheet wb name ws) name = some ws := by
  induction wb with
  | nil => simp [setSheet, lookupSheet]
  | cons head rest ih =>
    obtain ⟨n, s⟩ := head
    by_cases h : n = name
    · simp [setSheet, lookupSheet, h]
    · simp [setSheet, lookupSheet, h, ih]

theorem writeRowsAt_of_ne_nil (ws : Sheet) (rows : List Row) (h : ws ≠ []) :
    writeRowsAt ws (max_row ws) rows = ws ++ rows := by
  have hlen : 1 ≤ ws.length := by
    cases ws with
    | nil => exact absurd rfl h
    | cons a l => simp
  have hmax : max_row ws = ws.length := Nat.max_eq_right hlen
  rw [writeRowsAt, hmax, Nat.sub_self]
  rw [List.take_length, List.drop_eq_nil_of_le (Nat.le_add_right _ _)]
  simp

theorem filter_not_contained_nil (ks acc : List String) (h : ∀ k ∈ ks, k ∈ acc) :
    ks.filter (fun k => !acc.contains k) = [] := by
  rw [List.filter_eq_nil_iff]
  intro a ha
  simpa using h a ha

theorem dfColumns_foldl_const (rest : List (List (String × JVal))) :
    ∀ acc : List String, (∀ x ∈ rest, ∀ k ∈ dictKeys x, k ∈ acc) →
      List.foldl
        (fun acc d => acc ++ (dictKeys d).filter (fun k => !acc.contains k))
        acc rest = acc := by
  induction rest with
  | nil => intro acc _; rfl
  | cons d rest ih =>
    intro acc h
    rw [List.foldl_cons]
    rw [filter_not_contained_nil (dictKeys d) acc (h d (by simp))]
    rw [List.append_nil]
    exact ih acc (fun x hx => h x (by simp [hx]))

theorem dfColumns_fixed (d : List (String × JVal))
    (rest : List (List (String × JVal)))
    (h : ∀ x ∈ d :: rest, dictKeys x = campos_interesse) :
    dfColumns (d :: rest) = campos_interesse := by
  have hd : dictKeys d = campos_interesse := h d (by simp)
  simp only [dfColumns, List.foldl_cons, List.nil_append]
  rw [hd]
  have hfit : campos_interesse.filter (fun k => !([] : List String).contains k)
      = campos_interesse := List.filter_eq_self.mpr (fun a _ => by simp)
  rw [hfit]
  exact dfColumns_foldl_const rest campos_interesse
    (fun x hx k hk => by rw [h x (by simp [hx])] at hk; exact hk)

/-! ## Claim C10 -/

/-- Claim C10: the normalizer is idempotent: normalizing an already
normalized identifier changes nothing. -/
theorem c10_limpar_idempotent (s : String) :
    limpar_cnpj (limpar_cnpj s) = limpar_cnpj s := by
  show String.mk ((s.data.filter str_isdigit).filter str_isdigit)
      = String.mk (s.data.filter str_isdigit)
  congr 1
  exact List.filter_eq_self.mpr (fun a ha => (List.mem_filter.mp ha).2)

/-! ## Claim C5 -/

/-- Claim C5 (counterexample): the normalizer does not return only the
ASCII characters 0-9.  The superscript-two character is classified as
a digit by the runtime, so it survives normalization, yet it lies
outside the ASCII range 0-9. -/
theorem c5_normalize_counterexample :
    limpar_cnpj "²" = "²" ∧ ¬(('0' ≤ '²') ∧ ('²' ≤ '9')) := by
  exact ⟨rfl, by decide⟩

/-- Claim C5 (amended): for every input string the normalizer returns
the subsequence of characters the runtime classifies as digits (a
superset of ASCII 0-9 that also holds, for example, superscript
digits), in the same relative order, with length at most the input
length; and the three concrete examples of the claim hold. -/
theorem c5_normalize_amended :
    (∀ s : String,
        List.Sublist (limpar_cnpj s).data s.data ∧
        (limpar_cnpj s).length ≤ s.length ∧
        ∀ c ∈ (limpar_cnpj s).data, str_isdigit c = true) ∧
    limpar_cnpj "12.345/678-90" = "1234567890" ∧
    limpar_cnpj "" = "" ∧
    limpar_cnpj "abc" = "" := by
  refine ⟨fun s => ⟨?_, ?_, ?_⟩, rfl, rfl, rfl⟩
  · exact List.filter_sublist _
  · show (s.data.filter str_isdigit).length ≤ s.data.length
    exact List.length_filter_le _ _
  · intro c hc
    exact (List.mem_filter.mp hc).2

/-- Witness for the amended claim C5 at a concrete input. -/
theorem c5_normalize_amended_witness :
    (List.Sublist (limpar_cnpj "a1").data "a1".data) ∧
    ((limpar_cnpj "a1").length ≤ "a1".length) ∧
    str_isdigit '1' = true :=
  ⟨(c5_normalize_amended.1 "a1").1, (c5_normalize_amended.1 "a1").2.1,
   (c5_normalize_amended.1 "a1").2.2 '1' (by decide)⟩

/-! ## Claim C8 -/

/-- Claim C8: with an empty accumulated batch the driver never invokes
the appender, so the workbook is untouched: no sheet is created and
nothing is written. -/
theorem c8_empty_batch_skips_save (wb : Workbook) :
    driver_save [] wb = .ok wb := rfl

theorem anyKey_eq_lookup_isSome (m : List (String × JVal)) (k : String) :
    (m.any fun p => p.1 == k) = (m.lookup k).isSome := by
  induction m with
  | nil => simp [List.lookup]
  | cons p rest ih =>
    obtain ⟨k0, v0⟩ := p
    by_cases h : k0 = k
    · subst h; simp [List.lookup]
    · have h1 : (k0 == k) = false := beq_eq_false_iff_ne.mpr h
      have h2 : (k == k0) = false := beq_eq_false_iff_ne.mpr (Ne.symm h)
      simp [List.lookup, h1, h2, ih]

@[simp] theorem except_bind_ok {ε α β : Type} (a : α) (f : α → Except ε β) :
    (Except.ok a : Except ε α) >>= f = f a := rfl

@[simp] theorem except_pure_eq_ok {ε α : Type} (a : α) :
    (pure a : Except ε α) = Except.ok a := rfl

theorem mapM_loop_ok {α β : Type} (f : α → Except PyExc β) (g : α → β)
    (hf : ∀ a, f a = .ok (g a)) :
    ∀ (l : List α) (acc : List β),
      List.mapM.loop f l acc = .ok (acc.reverse ++ l.map g) := by
  intro l
  induction l with
  | nil => intro acc; simp [List.mapM.loop]
  | cons c rest ih =>
    intro acc
    simp only [List.mapM.loop, hf c]
    show List.mapM.loop f rest (g c :: acc) = _
    rw [ih (g c :: acc)]
    simp

theorem mapM_pyGet_obj (m : List (String × JVal)) (l : List String) :
    List.mapM (fun campo =>
        (pyGetMethod (JVal.obj m) campo (JVal.str "")).map (fun v => (campo, v))) l
      = .ok (l.map fun campo => (campo, dictGetD m campo (JVal.str ""))) := by
  show List.mapM.loop _ l [] = _
  have h := mapM_loop_ok
    (fun campo =>
      (pyGetMethod (JVal.obj m) campo (JVal.str "")).map (fun v => (campo, v)))
    (fun campo => (campo, dictGetD m campo (JVal.str "")))
    (fun a => rfl) l []
  simpa using h

theorem dictSet_lookup_self (d : List (String × JVal)) (k : String) (v : JVal) :
    (dictSet d k v).lookup k = some v := by
  induction d with
  | nil => simp [dictSet, List.lookup]
  | cons p rest ih =>
    obtain ⟨k0, v0⟩ := p
    by_cases h : k0 = k
    · subst h; simp [dictSet, List.lookup]
    · have h2 : (k == k0) = false := beq_eq_false_iff_ne.mpr (Ne.symm h)
      simp [dictSet, h, List.lookup, h2, ih]

theorem lookup_map_key (g : String → JVal) (l : List String) (k : String)
    (h : k ∈ l) :
    (l.map fun c => (c, g c)).lookup k = some (g k) := by
  induction l with
  | nil => cases h
  | cons c rest ih =>
    by_cases hc : c = k
    · subst hc; simp [List.lookup]
    · have h2 : (k == c) = false := beq_eq_false_iff_ne.mpr (Ne.symm hc)
      have hm : k ∈ rest := by
        cases h with
        | head => exact absurd rfl hc
        | tail _ h => exact h
      simp [List.lookup, h2, ih hm]

/-! ## Claim C6 -/

/-- Claim C6 (counterexample): the formatter is neither total over
every mapping-shaped input, nor does it map an empty activity list to
the empty string.  For an activity field holding the empty list the
formatted row keeps the raw empty list, which is not the empty string;
and for an activity field holding a truthy non-list value the
formatter raises instead of returning a row. -/
theorem c6_formatter_counterexample :
    (formatar_dados (JVal.obj [("atividade_principal", JVal.list [])])
        = .ok [("cnpj", JVal.str ""), ("nome", JVal.str ""),
            ("telefone", JVal.str ""), ("email", JVal.str ""),
            ("logradouro", JVal.str ""), ("bairro", JVal.str ""),
            ("municipio", JVal.str ""), ("uf", JVal.str ""),
            ("cep", JVal.str ""), ("atividade_principal", JVal.list [])] ∧
      JVal.list [] ≠ JVal.str "") ∧
    formatar_dados (JVal.obj [("atividade_principal", JVal.num 1)])
        = .error .typeError :=
  ⟨⟨rfl, fun h => nomatch h⟩, rfl⟩

/-- Claim C6 (amended): the formatter performs no I/O and is total
over every mapping-shaped input whose activity value, when present and
truthy, is a list whose first element is a mapping; a mapping missing
all ten fields yields a row of ten empty strings; an activity field of
one mapping carrying the text Comércio yields that text as the
activity field of the row; and an activity field holding the empty
list is kept as the raw empty list in the row (not replaced by the
empty string). -/
theorem c6_formatter_amended :
    (∀ m : List (String × JVal),
        (∀ v, m.lookup "atividade_principal" = some v →
            jtruthy v = false ∨ ∃ h0 t, v = JVal.list (JVal.obj h0 :: t)) →
        ∃ d, formatar_dados (JVal.obj m) = .ok d) ∧
    (∀ m : List (String × JVal),
        (∀ c ∈ campos_interesse, m.lookup c = none) →
        formatar_dados (JVal.obj m)
          = .ok (campos_interesse.map fun c => (c, JVal.str ""))) ∧
    (∀ m : List (String × JVal),
        m.lookup "atividade_principal"
            = some (JVal.list [JVal.obj [("text", JVal.str "Comércio")]]) →
        ∃ d, formatar_dados (JVal.obj m) = .ok d ∧
          d.lookup "atividade_principal" = some (JVal.str "Comércio")) ∧
    (∀ m : List (String × JVal),
        m.lookup "atividade_principal" = some (JVal.list []) →
        formatar_dados (JVal.obj m)
          = .ok (campos_interesse.map fun c => (c, dictGetD m c (JVal.str ""))) ∧
        (campos_interesse.map fun c => (c, dictGetD m c (JVal.str ""))).lookup
            "atividade_principal" = some (JVal.list [])) := by
  refine ⟨?_, ?_, ?_, ?_⟩
  · intro m h
    cases hl : m.lookup "atividade_principal" with
    | none =>
      have hany : (m.any fun p => p.1 == "atividade_principal") = false := by
        rw [anyKey_eq_lookup_isSome, hl]; rfl
      exact ⟨campos_interesse.map fun campo =>
          (campo, dictGetD m campo (JVal.str "")),
        by simp only [formatar_dados, mapM_pyGet_obj, pyIn, hany,
          except_bind_ok, except_pure_eq_ok, Bool.false_eq_true, if_false]⟩
    | some v =>
      have hany : (m.any fun p => p.1 == "atividade_principal") = true := by
        rw [anyKey_eq_lookup_isSome, hl]; rfl
      have hsub : pySubscriptStr (JVal.obj m) "atividade_principal" = .ok v := by
        simp [pySubscriptStr, hl]
      rcases h v hl with hfalse | ⟨h0, t, rfl⟩
      · exact ⟨campos_interesse.map fun campo =>
            (campo, dictGetD m campo (JVal.str "")),
          by simp only [formatar_dados, mapM_pyGet_obj, pyIn, hany,
            except_bind_ok, except_pure_eq_ok, if_true, hsub, hfalse,
            Bool.false_eq_true, if_false]⟩
      · refine ⟨dictSet (campos_interesse.map fun campo =>
            (campo, dictGetD m campo (JVal.str ""))) "atividade_principal"
            (dictGetD h0 "text" (JVal.str "")), ?_⟩
        simp only [formatar_dados, mapM_pyGet_obj, pyIn, hany, except_bind_ok,
          except_pure_eq_ok, if_true, hsub]
        simp [jtruthy, pySubscriptNat, pyGetMethod]
  · intro m h
    have hativ : m.lookup "atividade_principal" = none :=
      h _ (by simp [campos_interesse])
    have hany : (m.any fun p => p.1 == "atividade_principal") = false := by
      rw [anyKey_eq_lookup_isSome, hativ]; rfl
    simp only [formatar_dados, mapM_pyGet_obj, pyIn, hany, except_bind_ok,
      except_pure_eq_ok, Bool.false_eq_true, if_false]
    refine congrArg Except.ok (List.map_congr_left ?_)
    intro c hc
    simp [dictGetD, h c hc]
  · intro m h
    have hany : (m.any fun p => p.1 == "atividade_principal") = true := by
      rw [anyKey_eq_lookup_isSome, h]; rfl
    have hsub : pySubscriptStr (JVal.obj m) "atividade_principal"
        = .ok (JVal.list [JVal.obj [("text", JVal.str "Comércio")]]) := by
      simp [pySubscriptStr, h]
    refine ⟨dictSet (campos_interesse.map fun campo =>
        (campo, dictGetD m campo (JVal.str ""))) "atividade_principal"
        (JVal.str "Comércio"), ?_, dictSet_lookup_self _ _ _⟩
    simp only [formatar_dados, mapM_pyGet_obj, pyIn, hany, except_bind_ok,
      except_pure_eq_ok, if_true, hsub]
    simp [jtruthy, pySubscriptNat, pyGetMethod, dictGetD, List.lookup]
  · intro m h
    have hany : (m.any fun p => p.1 == "atividade_principal") = true := by
      rw [anyKey_eq_lookup_isSome, h]; rfl
    have hsub : pySubscriptStr (JVal.obj m) "atividade_principal"
        = .ok (JVal.list []) := by
      simp [pySubscriptStr, h]
    constructor
    · simp only [formatar_dados, mapM_pyGet_obj, pyIn, hany, except_bind_ok,
        except_pure_eq_ok, if_true, hsub]
      simp [jtruthy]
    · rw [lookup_map_key _ _ _ (by simp [campos_interesse])]
      simp [dictGetD, h]

/-- Witness for the amended claim C6 at concrete inputs. -/
theorem c6_formatter_amended_witness :
    (∃ d, formatar_dados (JVal.obj [("nome", JVal.str "A")]) = .ok d) ∧
    formatar_dados (JVal.obj [])
      = .ok (campos_interesse.map fun c => (c, JVal.str "")) ∧
    (∃ d, formatar_dados (JVal.obj [("atividade_principal",
          JVal.list [JVal.obj [("text", JVal.str "Comércio")]])]) = .ok d ∧
        d.lookup "atividade_principal" = some (JVal.str "Comércio")) ∧
    (formatar_dados (JVal.obj [("atividade_principal", JVal.list [])])
        = .ok (campos_interesse.map fun c =>
            (c, dictGetD [("atividade_principal", JVal.list [])] c (JVal.str ""))) ∧
      (campos_interesse.map fun c =>
          (c, dictGetD [("atividade_principal", JVal.list [])] c
            (JVal.str ""))).lookup "atividade_principal"
        = some (JVal.list [])) :=
  ⟨c6_formatter_amended.1 [("nome", JVal.str "A")] (fun _ hv => nomatch hv),
   c6_formatter_amended.2.1 [] (fun _ _ => rfl),
   c6_formatter_amended.2.2.1 [("atividade_principal",
      JVal.list [JVal.obj [("text", JVal.str "Comércio")]])] rfl,
   c6_formatter_amended.2.2.2 [("atividade_principal", JVal.list [])] rfl⟩

/-! ## Claim C4 -/

/-- Claim C4: outcomes of one registry lookup.  A status other than 200
yields the absence signal with the connection closed and nothing
raised, whatever the body holds; a 200 response whose body fails to
decode propagates the decode failure; a 200 body decoding to a record
whose status field holds the error sentinel yields the absence signal
with the connection closed; and any other decoded record is returned
as is. -/
theorem c4_lookup_outcomes (cnpj : String) :
    (∀ (status : Nat) (body : Except PyExc JVal), status ≠ 200 →
        (obter_dados_empresa_por_cnpj cnpj status body).outcome = .ok none ∧
        (obter_dados_empresa_por_cnpj cnpj status body).connClosed = true) ∧
    (∀ e : PyExc,
        (obter_dados_empresa_por_cnpj cnpj 200 (.error e)).outcome = .error e) ∧
    (∀ m : List (String × JVal), m.lookup "status" = some (JVal.str "ERROR") →
        (obter_dados_empresa_por_cnpj cnpj 200 (.ok (JVal.obj m))).outcome
            = .ok none ∧
        (obter_dados_empresa_por_cnpj cnpj 200 (.ok (JVal.obj m))).connClosed
            = true) ∧
    (∀ m : List (String × JVal),
        ¬ m.lookup "status" = some (JVal.str "ERROR") →
        (obter_dados_empresa_por_cnpj cnpj 200 (.ok (JVal.obj m))).outcome
            = .ok (some (JVal.obj m))) := by
  refine ⟨?_, fun e => rfl, ?_, ?_⟩
  · intro status body h
    constructor <;> simp [obter_dados_empresa_por_cnpj, h]
  · intro m hm
    have hsome : (m.lookup "status").isSome = true := by rw [hm]; rfl
    constructor <;>
      simp [obter_dados_empresa_por_cnpj, pyIn, pySubscriptStr,
        anyKey_eq_lookup_isSome, hsome, hm, eqStrERROR]
  · intro m hm
    cases hl : m.lookup "status" with
    | none =>
      have hsome : (m.lookup "status").isSome = false := by rw [hl]; rfl
      simp [obter_dados_empresa_por_cnpj, pyIn, pySubscriptStr,
        anyKey_eq_lookup_isSome, hsome, hl]
    | some v =>
      have hsome : (m.lookup "status").isSome = true := by rw [hl]; rfl
      have hv : eqStrERROR v = false := by
        cases v with
        | str s =>
          have : s ≠ "ERROR" := by
            intro hs; subst hs; exact hm hl
          simpa [eqStrERROR] using this
        | null => rfl
        | bool b => rfl
        | num n => rfl
        | list xs => rfl
        | obj fields => rfl
      simp [obter_dados_empresa_por_cnpj, pyIn, pySubscriptStr,
        anyKey_eq_lookup_isSome, hsome, hl, hv]

/-- Witness for claim C4 at concrete inputs: a 404, a decode failure
under 200, a 200 record carrying the error sentinel, and a 200 record
without it. -/
theorem c4_lookup_outcomes_witness :
    ((obter_dados_empresa_por_cnpj "x" 404 (.error .jsonDecodeError)).outcome
        = .ok none ∧
      (obter_dados_empresa_por_cnpj "x" 404 (.error .jsonDecodeError)).connClosed
        = true) ∧
    (obter_dados_empresa_por_cnpj "x" 200 (.error .jsonDecodeError)).outcome
        = .error .jsonDecodeError ∧
    ((obter_dados_empresa_por_cnpj "x" 200
          (.ok (JVal.obj [("status", JVal.str "ERROR")]))).outcome = .ok none ∧
      (obter_dados_empresa_por_cnpj "x" 200
          (.ok (JVal.obj [("status", JVal.str "ERROR")]))).connClosed = true) ∧
    (obter_dados_empresa_por_cnpj "x" 200 (.ok (JVal.obj []))).outcome
        = .ok (some (JVal.obj [])) :=
  ⟨(c4_lookup_outcomes "x").1 404 (.error .jsonDecodeError) (by decide),
   (c4_lookup_outcomes "x").2.1 .jsonDecodeError,
   (c4_lookup_outcomes "x").2.2.1 [("status", JVal.str "ERROR")] rfl,
   (c4_lookup_outcomes "x").2.2.2 [] (fun h => nomatch h)⟩

/-! ## Claim C3 -/

/-- Claim C3 (counterexample): a probe failure other than the
missing-key signal is not handled by the sheet-creation path; the
appender body rethrows it to the caller. -/
theorem c3_probe_failure_counterexample :
    salvar_core (.error .typeError) (DataFrame.mk campos_interesse [[JVal.str "x"]])
      = .error .typeError ∧
    salvar_core (.error .typeError) (DataFrame.mk campos_interesse [[JVal.str "x"]])
      ≠ .ok (headerRow (DataFrame.mk campos_interesse [[JVal.str "x"]])
          :: [[JVal.str "x"]]) :=
  ⟨rfl, fun h => nomatch h⟩

/-- Claim C3 (amended): exactly the missing-key signal raised while
probing sheet existence is handled by taking the sheet-creation path
(writing the rows with a header) and is not rethrown; every other
probe failure propagates to the caller, and failure to open the file
itself propagates before anything else runs. -/
theorem c3_probe_failure_amended (df : DataFrame) :
    (salvar_core (.error .keyError) df = .ok (headerRow df :: df.rows)) ∧
    (∀ e : PyExc, e ≠ .keyError → salvar_core (.error e) df = .error e) ∧
    (∀ name : String, ∀ e : PyExc,
        salvar_com_abertura df (.error e) name = .error e) := by
  refine ⟨rfl, ?_, fun name e => rfl⟩
  intro e he
  cases e with
  | keyError => exact absurd rfl he
  | typeError => rfl
  | attributeError => rfl
  | indexError => rfl
  | jsonDecodeError => rfl

/-! ## Claim C2 -/

/-- Claim C2: one invocation of the appender on a nonempty batch.
When the target sheet name exists (and, as for every sheet this
program writes, carries at least its header row), the data rows are
written immediately after the current last occupied row with no
header; when it does not exist, the sheet is created holding a header
row followed by the data rows starting at the first row; and the
header written for a batch of formatted rows consists of the ten fixed
field names in order. -/
theorem c2_single_invocation (wb : Workbook) (df : DataFrame) (name : String)
    (_hne : df.rows ≠ []) :
    (∀ ws, lookupSheet wb name = some ws → ws ≠ [] →
        salvar_dados_empresa_excel df wb name =
          .ok (setSheet wb name (ws ++ df.rows))) ∧
    (lookupSheet wb name = none →
        salvar_dados_empresa_excel df wb name =
          .ok (setSheet wb name (headerRow df :: df.rows))) ∧
    (∀ d rest, (∀ x ∈ d :: rest, dictKeys x = campos_interesse) →
        (pdDataFrame (d :: rest)).cols = campos_interesse) := by
  refine ⟨?_, ?_, ?_⟩
  · intro ws hws hwsne
    simp [salvar_dados_empresa_excel, getSheet, hws, salvar_core,
      writeRowsAt_of_ne_nil ws df.rows hwsne]
  · intro hnone
    simp [salvar_dados_empresa_excel, getSheet, hnone, salvar_core]
  · intro d rest h
    exact dfColumns_fixed d rest h

/-- Witness for claim C2 at concrete inputs: an append to an existing
sheet, a creation, and the column inference of a formatted batch. -/
theorem c2_single_invocation_witness :
    (salvar_dados_empresa_excel (DataFrame.mk ["a"] [[JVal.str "r"]])
        [("Dados", [[JVal.str "h"]])] "Dados"
      = .ok (setSheet [("Dados", [[JVal.str "h"]])] "Dados"
          ([[JVal.str "h"]] ++ [[JVal.str "r"]]))) ∧
    (salvar_dados_empresa_excel (DataFrame.mk ["a"] [[JVal.str "r"]]) [] "Dados"
      = .ok (setSheet [] "Dados"
          (headerRow (DataFrame.mk ["a"] [[JVal.str "r"]]) :: [[JVal.str "r"]]))) ∧
    (pdDataFrame [campos_interesse.map (fun c => (c, JVal.str ""))]).cols
      = campos_interesse := by
  refine ⟨?_, ?_, ?_⟩
  · exact (c2_single_invocation [("Dados", [[JVal.str "h"]])]
      (DataFrame.mk ["a"] [[JVal.str "r"]]) "Dados" (by simp)).1
      [[JVal.str "h"]] rfl (by simp)
  · exact (c2_single_invocation [] (DataFrame.mk ["a"] [[JVal.str "r"]]) "Dados"
      (by simp)).2.1 rfl
  · exact (c2_single_invocation [] (DataFrame.mk ["a"] [[JVal.str "r"]]) "Dados"
      (by simp)).2.2 (campos_interesse.map (fun c => (c, JVal.str ""))) []
      (by intro x hx; simp only [List.mem_singleton] at hx; subst hx; rfl)

/-! ## Claim C1 -/

/-- Claim C1: appending batch B1 and then batch B2 under a sheet name
absent before the first append yields a sheet whose data rows are the
rows of B1 followed by the rows of B2, with exactly one header row at
the top, and the sheet present before the second append is a prefix of
the final sheet: no row present before an append is truncated or
overwritten by it. -/
theorem c1_fresh_append_batches (wb : Workbook) (df1 df2 : DataFrame)
    (name : String) (hfresh : lookupSheet wb name = none) :
    ∃ wb1 wb2,
      salvar_dados_empresa_excel df1 wb name = .ok wb1 ∧
      salvar_dados_empresa_excel df2 wb1 name = .ok wb2 ∧
      lookupSheet wb1 name = some (headerRow df1 :: df1.rows) ∧
      lookupSheet wb2 name = some (headerRow df1 :: (df1.rows ++ df2.rows)) ∧
      (∃ tail, headerRow df1 :: (df1.rows ++ df2.rows)
          = (headerRow df1 :: df1.rows) ++ tail) := by
  refine ⟨setSheet wb name (headerRow df1 :: df1.rows),
    setSheet (setSheet wb name (headerRow df1 :: df1.rows)) name
      (headerRow df1 :: (df1.rows ++ df2.rows)),
    ?_, ?_, ?_, ?_, ⟨df2.rows, by simp⟩⟩
  · simp [salvar_dados_empresa_excel, getSheet, hfresh, salvar_core]
  · have hl := lookupSheet_setSheet_self wb name (headerRow df1 :: df1.rows)
    simp [salvar_dados_empresa_excel, getSheet, hl, salvar_core,
      writeRowsAt_of_ne_nil _ df2.rows (List.cons_ne_nil _ _)]
  · exact lookupSheet_setSheet_self wb name _
  · exact lookupSheet_setSheet_self _ name _

/-- Witness for claim C1 at concrete inputs. -/
theorem c1_fresh_append_batches_witness :
    ∃ wb1 wb2,
      salvar_dados_empresa_excel (DataFrame.mk ["a"] [[JVal.str "1"]]) [] "Dados"
        = .ok wb1 ∧
      salvar_dados_empresa_excel (DataFrame.mk ["a"] [[JVal.str "2"]]) wb1 "Dados"
        = .ok wb2 ∧
      lookupSheet wb1 "Dados"
        = some (headerRow (DataFrame.mk ["a"] [[JVal.str "1"]]) :: [[JVal.str "1"]]) ∧
      lookupSheet wb2 "Dados"
        = some (headerRow (DataFrame.mk ["a"] [[JVal.str "1"]])
            :: ([[JVal.str "1"]] ++ [[JVal.str "2"]])) ∧
      (∃ tail, headerRow (DataFrame.mk ["a"] [[JVal.str "1"]])
            :: ([[JVal.str "1"]] ++ [[JVal.str "2"]])
          = (headerRow (DataFrame.mk ["a"] [[JVal.str "1"]]) :: [[JVal.str "1"]])
            ++ tail) :=
  c1_fresh_append_batches [] (DataFrame.mk ["a"] [[JVal.str "1"]])
    (DataFrame.mk ["a"] [[JVal.str "2"]]) "Dados" rfl

/-- Witness for the amended claim C3 at concrete inputs. -/
theorem c3_probe_failure_amended_witness :
    (salvar_core (.error .keyError) (DataFrame.mk ["a"] [])
        = .ok (headerRow (DataFrame.mk ["a"] []) :: [])) ∧
    salvar_core (.error .typeError) (DataFrame.mk ["a"] []) = .error .typeError ∧
    salvar_com_abertura (DataFrame.mk ["a"] []) (.error .keyError) "Dados"
        = .error .keyError :=
  ⟨(c3_probe_failure_amended (DataFrame.mk ["a"] [])).1,
   (c3_probe_failure_amended (DataFrame.mk ["a"] [])).2.1 .typeError (by decide),
   (c3_probe_failure_amended (DataFrame.mk ["a"] [])).2.2 "Dados" .keyError⟩

/-! ## Claim C7 -/

theorem driver_loop_acc (env : String → Nat × Except PyExc JVal)
    (cnpjs : List String) :
    ∀ acc batch, driver_loop env cnpjs acc = .ok batch →
      batch = acc ++ cnpjs.filterMap (specKeptRow env) := by
  induction cnpjs with
  | nil =>
    intro acc batch h
    simp only [driver_loop] at h
    cases h
    simp
  | cons cnpj rest ih =>
    intro acc batch h
    simp only [driver_loop] at h
    rw [List.filterMap_cons]
    split at h
    · cases h
    · rename_i heq
      rw [ih acc batch h]
      simp [specKeptRow, heq]
    · rename_i v heq
      split at h
      · rename_i hv
        split at h
        · rename_i e hf
          cases h
        · rename_i linha hf
          rw [ih (acc ++ [linha]) batch h]
          simp [specKeptRow, heq, hv, hf, Except.toOption]
      · rename_i hv
        rw [ih acc batch h]
        simp [specKeptRow, heq, hv]

/-- Claim C7: when the driver loop completes without a raised
exception, the accumulated batch is exactly the input identifier
sequence filtered and mapped to the row each identifier yields: order
equals input order restricted to identifiers that yielded a truthy
record, failed or errored identifiers contribute nothing, and the
batch is never longer than the input. -/
theorem c7_resultados_filtermap (env : String → Nat × Except PyExc JVal)
    (cnpjs : List String) (batch : List (List (String × JVal)))
    (h : driver_loop env cnpjs [] = .ok batch) :
    batch = cnpjs.filterMap (specKeptRow env) ∧
    batch.length ≤ cnpjs.length := by
  have hacc := driver_loop_acc env cnpjs [] batch h
  rw [List.nil_append] at hacc
  refine ⟨hacc, ?_⟩
  rw [hacc]
  exact List.length_filterMap_le _ _

/-- Witness for claim C7 at a concrete run: one identifier yielding a
record, one failing with 404, one answered by the error sentinel. -/
theorem c7_resultados_filtermap_witness :
    ([("cnpj", JVal.str ""), ("nome", JVal.str "A"), ("telefone", JVal.str ""),
      ("email", JVal.str ""), ("logradouro", JVal.str ""),
      ("bairro", JVal.str ""), ("municipio", JVal.str ""), ("uf", JVal.str ""),
      ("cep", JVal.str ""), ("atividade_principal", JVal.str "")]
        :: ([] : List (List (String × JVal))))
      = ["1", "2", "3"].filterMap
          (specKeptRow (fun cnpj =>
            if cnpj = "1" then (200, Except.ok (JVal.obj [("nome", JVal.str "A")]))
            else if cnpj = "2" then (404, Except.ok (JVal.obj []))
            else (200, Except.ok (JVal.obj [("status", JVal.str "ERROR")])))) ∧
    ([("cnpj", JVal.str ""), ("nome", JVal.str "A"), ("telefone", JVal.str ""),
      ("email", JVal.str ""), ("logradouro", JVal.str ""),
      ("bairro", JVal.str ""), ("municipio", JVal.str ""), ("uf", JVal.str ""),
      ("cep", JVal.str ""), ("atividade_principal", JVal.str "")]
        :: ([] : List (List (String × JVal)))).length
      ≤ (["1", "2", "3"] : List String).length :=
  c7_resultados_filtermap
    (fun cnpj =>
      if cnpj = "1" then (200, Except.ok (JVal.obj [("nome", JVal.str "A")]))
      else if cnpj = "2" then (404, Except.ok (JVal.obj []))
      else (200, Except.ok (JVal.obj [("status", JVal.str "ERROR")])))
    ["1", "2", "3"] _ (by rfl)

/-! ## Claim C9 -/

/-- Claim C9: a lookup answered with status 200 whose body decodes to
the empty mapping (falsy, carrying no error sentinel) returns that
record, and the driver then treats it exactly like a failed lookup:
the loop step formats nothing and appends no row. -/
theorem c9_falsy_record_skipped (env : String → Nat × Except PyExc JVal)
    (cnpj : String) (rest : List String) (acc : List (List (String × JVal)))
    (h : (obter_dados_empresa_por_cnpj cnpj (env cnpj).1 (env cnpj).2).outcome
        = .ok (some (JVal.obj []))) :
    driver_loop env (cnpj :: rest) acc = driver_loop env rest acc ∧
    (obter_dados_empresa_por_cnpj cnpj 200 (.ok (JVal.obj []))).outcome
      = .ok (some (JVal.obj [])) := by
  constructor
  · simp only [driver_loop, h]
    rfl
  · rfl

/-- Witness for claim C9 at a concrete environment. -/
theorem c9_falsy_record_skipped_witness :
    driver_loop (fun _ => (200, Except.ok (JVal.obj []))) ["00000000000000"] []
      = driver_loop (fun _ => (200, Except.ok (JVal.obj []))) [] [] ∧
    (obter_dados_empresa_por_cnpj "00000000000000" 200
        (.ok (JVal.obj []))).outcome = .ok (some (JVal.obj [])) :=
  c9_falsy_record_skipped (fun _ => (200, Except.ok (JVal.obj [])))
    "00000000000000" [] [] (by rfl)

end BuscaCnpj
